import Mathlib

/-!
# Verification of the CSS selector builder (`05-objects-tasks.js`)

Shallow embedding of the `Selector` class and the `cssSelectorBuilder`
facade.  A selector part is stored in JavaScript as the object
`{ selector, value }` with both fields strings; a `Selector`'s state is
its `selectorsStorage` array, embedded here as a `List SelectorPart`.  Methods
that mutate `this` and may throw are embedded as functions from the
pre-state to a pair of a result (`Except JsError Unit`, where `.error`
is a thrown exception) and the post-state.
-/

/-- One entry of `selectorsStorage`: the object `{ selector, value }`. -/
structure SelectorPart where
  selector : String
  value : String
deriving DecidableEq, Repr

/-- A JavaScript exception: either an `Error` thrown explicitly with a
message, or the `TypeError` that reading `.selector` of `undefined`
(from `.at(-1)` on an empty array) would raise. -/
inductive JsError where
  | thrown (msg : String)
  | typeError
deriving DecidableEq, Repr

deriving instance DecidableEq for Except

/-- The state of a `Selector` instance: its `selectorsStorage` array. -/
abbrev Selector := List SelectorPart

/-- The `selectorsOrder` array from `check`. -/
def selectorsOrder : List String :=
  ["element", "id", "class", "attr", "pseudoClass", "pseudoElement"]

/-- JavaScript `Array.prototype.indexOf`: index of the first occurrence,
`-1` when absent. -/
def jsIndexOf : List String → String → Int
  | [], _ => -1
  | x :: xs, s =>
    if x = s then 0
    else
      let r := jsIndexOf xs s
      if r = -1 then -1 else r + 1

/-- The message of the duplicate-part error thrown in `check`
(verbatim from the source, including its spelling "more then"). -/
def duplicateMsg : String :=
  "Element, id and pseudo-element should not occur more then one time inside the selector"

/-- The message of the out-of-order error thrown in `check`
(verbatim from the source). -/
def outOfOrderMsg : String :=
  "Selector parts should be arranged in the following order: element, id, class, attribute, pseudo-class, pseudo-element"

/-- `Selector.prototype.check(selector)`: first the uniqueness check for
`element`/`id`/`pseudoElement`, then the ordering check against the kind
of the last stored part (`this.selectorsStorage.at(-1).selector`). -/
def Selector.check (storage : Selector) (selector : String) : Except JsError Unit :=
  if (selector = "element" ∨ selector = "id" ∨ selector = "pseudoElement") ∧
      0 < (storage.filter (fun item => item.selector = selector)).length then
    Except.error (JsError.thrown duplicateMsg)
  else
    match storage.getLast? with
    | none => Except.error JsError.typeError
    | some lastElem =>
      if jsIndexOf selectorsOrder selector < jsIndexOf selectorsOrder lastElem.selector then
        Except.error (JsError.thrown outOfOrderMsg)
      else
        Except.ok ()

/-- Common body of the six part-adder methods: `this.check(kind)` then
`this.selectorsStorage.push({ selector: kind, value })`.  The second
component is the post-state of `this`; when `check` throws, nothing has
been pushed yet, so the post-state is the pre-state. -/
def Selector.addPartRun (storage : Selector) (selector value : String) :
    Except JsError Unit × Selector :=
  match storage.check selector with
  | Except.error e => (Except.error e, storage)
  | Except.ok _ => (Except.ok (), storage ++ [SelectorPart.mk selector value])

/-- `Selector.prototype.element`. -/
def Selector.element (storage : Selector) (value : String) :=
  storage.addPartRun "element" value

/-- `Selector.prototype.id`. -/
def Selector.id (storage : Selector) (value : String) :=
  storage.addPartRun "id" value

/-- `Selector.prototype.class`. -/
def Selector.«class» (storage : Selector) (value : String) :=
  storage.addPartRun "class" value

/-- `Selector.prototype.attr`. -/
def Selector.attr (storage : Selector) (value : String) :=
  storage.addPartRun "attr" value

/-- `Selector.prototype.pseudoClass`. -/
def Selector.pseudoClass (storage : Selector) (value : String) :=
  storage.addPartRun "pseudoClass" value

/-- `Selector.prototype.pseudoElement`. -/
def Selector.pseudoElement (storage : Selector) (value : String) :=
  storage.addPartRun "pseudoElement" value

/-- The `switch` in `stringify`: one stored part's formatted token. -/
def formatToken (item : SelectorPart) : String :=
  if item.selector = "id" then "#" ++ item.value
  else if item.selector = "class" then "." ++ item.value
  else if item.selector = "attr" then "[" ++ item.value ++ "]"
  else if item.selector = "pseudoClass" then ":" ++ item.value
  else if item.selector = "pseudoElement" then "::" ++ item.value
  else item.value

/-- `Selector.prototype.stringify`: `forEach` over the storage,
appending each part's formatted token to the local `string`. -/
def Selector.stringify (storage : Selector) : String :=
  storage.foldl (fun string item => string ++ formatToken item) ""

/-- `stringify` with the post-call storage made explicit: the method
body only reads `selectorsStorage` (the `forEach` callback assigns only
the local `string`), so the storage after the call is the storage the
call started from. -/
def Selector.stringifyRun (storage : Selector) : String × Selector :=
  (storage.stringify, storage)

/-- A renderable selector expression: either a `Selector` instance or
the object literal returned by `combine`, which captures `selector1`,
`combinator` and `selector2`. -/
inductive Renderable where
  | selector (storage : Selector)
  | combined (selector1 : Renderable) (combinator : String) (selector2 : Renderable)
deriving DecidableEq, Repr

/-- `stringify` of a renderable: a `Selector` renders its parts; the
object returned by `combine` renders
`` `${selector1.stringify()} ${combinator} ${selector2.stringify()}` ``. -/
def Renderable.stringify : Renderable → String
  | .selector storage => storage.stringify
  | .combined l c r => l.stringify ++ " " ++ c ++ " " ++ r.stringify

/-- `stringify` of a renderable with the post-call expression made
explicit: no branch of either `stringify` writes to any stored field,
so each child is returned as it was read. -/
def Renderable.stringifyRun : Renderable → String × Renderable
  | .selector storage =>
    let r := storage.stringifyRun
    (r.1, .selector r.2)
  | .combined l c r =>
    let lr := l.stringifyRun
    let rr := r.stringifyRun
    (lr.1 ++ " " ++ c ++ " " ++ rr.1, .combined lr.2 c rr.2)

/-- The `selector1` captured by an object returned from `combine`. -/
def Renderable.leftChild : Renderable → Option Renderable
  | .combined l _ _ => some l
  | .selector _ => none

/-- The `selector2` captured by an object returned from `combine`. -/
def Renderable.rightChild : Renderable → Option Renderable
  | .combined _ _ r => some r
  | .selector _ => none

/-- `cssSelectorBuilder.element`: `new Selector({ selector: 'element', value })`. -/
def cssSelectorBuilder.element (value : String) : Selector :=
  [SelectorPart.mk "element" value]

/-- `cssSelectorBuilder.id`. -/
def cssSelectorBuilder.id (value : String) : Selector :=
  [SelectorPart.mk "id" value]

/-- `cssSelectorBuilder.class`. -/
def cssSelectorBuilder.«class» (value : String) : Selector :=
  [SelectorPart.mk "class" value]

/-- `cssSelectorBuilder.attr`. -/
def cssSelectorBuilder.attr (value : String) : Selector :=
  [SelectorPart.mk "attr" value]

/-- `cssSelectorBuilder.pseudoClass`. -/
def cssSelectorBuilder.pseudoClass (value : String) : Selector :=
  [SelectorPart.mk "pseudoClass" value]

/-- `cssSelectorBuilder.pseudoElement`. -/
def cssSelectorBuilder.pseudoElement (value : String) : Selector :=
  [SelectorPart.mk "pseudoElement" value]

/-- `cssSelectorBuilder.combine(selector1, combinator, selector2)`. -/
def cssSelectorBuilder.combine (selector1 : Renderable) (combinator : String)
    (selector2 : Renderable) : Renderable :=
  Renderable.combined selector1 combinator selector2

/-- One step of a chained build: apply to the current state the adder
method named by the part's kind, with the part's value. -/
def runStep (storage : Selector) (p : SelectorPart) : Except JsError Selector :=
  match storage.addPartRun p.selector p.value with
  | (Except.ok _, s') => Except.ok s'
  | (Except.error e, _) => Except.error e

/-- A whole chained build: start from the facade constructor for
`first` (a fresh `Selector` seeded with that one part) and apply the
adder method for each later part in order. -/
def runChain (first : SelectorPart) (rest : List SelectorPart) : Except JsError Selector :=
  rest.foldlM runStep [first]

/-- Rank of a kind in the required order (JS `indexOf` into
`selectorsOrder`). -/
def kindRank (k : String) : Int :=
  jsIndexOf selectorsOrder k

/-- The spec's description of rendering: the concatenation, in stored
order, of each part's formatted token, with no separators. -/
def concatTokens : List SelectorPart → String
  | [] => ""
  | p :: l => formatToken p ++ concatTokens l

/-- The selector states reachable through the public facade: seeded by
one of the six facade constructors (so with a part kind drawn from
`selectorsOrder`), then grown by successful part-adder calls. -/
inductive Reachable : Selector → Prop where
  | seeded (selector value : String) (hk : selector ∈ selectorsOrder) :
      Reachable [SelectorPart.mk selector value]
  | step (storage : Selector) (selector value : String) (h : Reachable storage)
      (hok : (storage.addPartRun selector value).1 = Except.ok ()) :
      Reachable (storage.addPartRun selector value).2

/-! ## Helper lemmas -/

/-- Structure eta for parts. -/
theorem SelectorPart.eta (p : SelectorPart) :
    SelectorPart.mk p.selector p.value = p := rfl

/-- `check` throws the duplicate error when the kind is one of the three
unique kinds and a part of that kind is already stored. -/
theorem Selector.check_dup (storage : Selector) (selector : String)
    (hk : selector = "element" ∨ selector = "id" ∨ selector = "pseudoElement")
    (hex : 0 < (storage.filter (fun item => item.selector = selector)).length) :
    storage.check selector = Except.error (JsError.thrown duplicateMsg) := by
  unfold Selector.check
  rw [if_pos ⟨hk, hex⟩]

/-- When the duplicate condition does not hold, `check` proceeds to the
ordering check. -/
theorem Selector.check_no_dup (storage : Selector) (selector : String)
    (hnd : ¬((selector = "element" ∨ selector = "id" ∨ selector = "pseudoElement") ∧
      0 < (storage.filter (fun item => item.selector = selector)).length)) :
    storage.check selector =
      match storage.getLast? with
      | none => Except.error JsError.typeError
      | some lastElem =>
        if jsIndexOf selectorsOrder selector < jsIndexOf selectorsOrder lastElem.selector then
          Except.error (JsError.thrown outOfOrderMsg)
        else
          Except.ok () := by
  unfold Selector.check
  rw [if_neg hnd]

/-- `check` passes when there is no duplicate and the new kind does not
rank strictly below the last stored kind. -/
theorem Selector.check_passes (storage : Selector) (selector : String) (lp : SelectorPart)
    (hnd : ¬((selector = "element" ∨ selector = "id" ∨ selector = "pseudoElement") ∧
      0 < (storage.filter (fun item => item.selector = selector)).length))
    (hlast : storage.getLast? = some lp)
    (hord : ¬(jsIndexOf selectorsOrder selector < jsIndexOf selectorsOrder lp.selector)) :
    storage.check selector = Except.ok () := by
  rw [Selector.check_no_dup storage selector hnd, hlast]
  simp [hord]

/-- `check` throws the out-of-order error when there is no duplicate and
the new kind ranks strictly below the last stored kind. -/
theorem Selector.check_outOfOrder (storage : Selector) (selector : String) (lp : SelectorPart)
    (hnd : ¬((selector = "element" ∨ selector = "id" ∨ selector = "pseudoElement") ∧
      0 < (storage.filter (fun item => item.selector = selector)).length))
    (hlast : storage.getLast? = some lp)
    (hord : jsIndexOf selectorsOrder selector < jsIndexOf selectorsOrder lp.selector) :
    storage.check selector = Except.error (JsError.thrown outOfOrderMsg) := by
  rw [Selector.check_no_dup storage selector hnd, hlast]
  simp [hord]

/-- An adder whose `check` passes appends the new part. -/
theorem Selector.addPartRun_of_ok (storage : Selector) (selector value : String)
    (h : storage.check selector = Except.ok ()) :
    storage.addPartRun selector value =
      (Except.ok (), storage ++ [SelectorPart.mk selector value]) := by
  unfold Selector.addPartRun
  rw [h]

/-- An adder whose `check` throws re-throws and leaves the storage as it
was. -/
theorem Selector.addPartRun_of_error (storage : Selector) (selector value : String)
    (e : JsError) (h : storage.check selector = Except.error e) :
    storage.addPartRun selector value = (Except.error e, storage) := by
  unfold Selector.addPartRun
  rw [h]

theorem foldl_formatToken (l : List SelectorPart) :
    ∀ a : String, l.foldl (fun string item => string ++ formatToken item) a =
      a ++ concatTokens l := by
  induction l with
  | nil => intro a; simp [concatTokens]
  | cons p l ih =>
    intro a
    simp only [List.foldl_cons, concatTokens, ih, String.append_assoc]

/-- `stringify` renders exactly the concatenation of the formatted
tokens in stored order. -/
theorem Selector.stringify_eq_concatTokens (storage : Selector) :
    storage.stringify = concatTokens storage := by
  have h := foldl_formatToken storage ""
  simpa [Selector.stringify] using h

/-- Generalised chain lemma: from any non-empty prefix already stored,
folding the adder methods over the remaining parts succeeds and appends
them all, provided the whole sequence has non-decreasing kind ranks and
at most one part of each unique kind. -/
theorem runChain_go (rest : List SelectorPart) :
    ∀ s : Selector, s ≠ [] →
    List.Chain' (fun a b => kindRank a.selector ≤ kindRank b.selector) (s ++ rest) →
    ((s ++ rest).filter (fun p => p.selector = "element")).length ≤ 1 →
    ((s ++ rest).filter (fun p => p.selector = "id")).length ≤ 1 →
    ((s ++ rest).filter (fun p => p.selector = "pseudoElement")).length ≤ 1 →
    rest.foldlM runStep s = Except.ok (s ++ rest) := by
  induction rest with
  | nil => intro s _ _ _ _ _; simp [pure, Except.pure]
  | cons p rest ih =>
    intro s hne hchain he hi hpe
    obtain ⟨lp, hlp⟩ : ∃ lp, s.getLast? = some lp := by
      cases h : s.getLast? with
      | none => exact absurd (List.getLast?_eq_none_iff.mp h) hne
      | some lp => exact ⟨lp, rfl⟩
    have hrel : kindRank lp.selector ≤ kindRank p.selector := by
      rw [List.chain'_append] at hchain
      exact hchain.2.2 lp hlp p rfl
    have key : ∀ k : String, p.selector = k →
        ((s ++ p :: rest).filter (fun q => q.selector = k)).length ≤ 1 →
        ¬ 0 < (s.filter (fun item => item.selector = p.selector)).length := by
      intro k hk hbound hpos
      rw [hk] at hpos
      rw [List.filter_append, List.length_append, List.filter_cons, if_pos (by simp [hk]),
        List.length_cons] at hbound
      omega
    have hnd : ¬((p.selector = "element" ∨ p.selector = "id" ∨ p.selector = "pseudoElement") ∧
        0 < (s.filter (fun item => item.selector = p.selector)).length) := by
      rintro ⟨hk, hpos⟩
      rcases hk with hk | hk | hk
      · exact key "element" hk he hpos
      · exact key "id" hk hi hpos
      · exact key "pseudoElement" hk hpe hpos
    have hchk : s.check p.selector = Except.ok () :=
      Selector.check_passes s p.selector lp hnd hlp (not_lt.mpr hrel)
    have hstep : runStep s p = Except.ok (s ++ [p]) := by
      unfold runStep
      rw [Selector.addPartRun_of_ok s p.selector p.value hchk, SelectorPart.eta]
    have happ : (s ++ [p]) ++ rest = s ++ p :: rest := by
      simp
    have := ih (s ++ [p]) (by simp)
      (by rw [happ]; exact hchain) (by rw [happ]; exact he)
      (by rw [happ]; exact hi) (by rw [happ]; exact hpe)
    rw [List.foldlM_cons, hstep]
    simpa [happ] using this

/-- Adding a part of a unique kind that is already stored throws the
duplicate error and leaves the storage unchanged. -/
theorem Selector.addPartRun_dup (storage : Selector) (selector value : String)
    (hk : selector = "element" ∨ selector = "id" ∨ selector = "pseudoElement")
    (hex : ∃ p ∈ storage, p.selector = selector) :
    storage.addPartRun selector value =
      (Except.error (JsError.thrown duplicateMsg), storage) := by
  have hlen : 0 < (storage.filter (fun item => item.selector = selector)).length := by
    obtain ⟨p, hp, hps⟩ := hex
    have hmem : p ∈ storage.filter (fun item => item.selector = selector) :=
      List.mem_filter.mpr ⟨hp, by simp [hps]⟩
    exact List.length_pos.mpr (List.ne_nil_of_mem hmem)
  exact Selector.addPartRun_of_error storage selector value _
    (Selector.check_dup storage selector hk hlen)

/-- Neither `stringify` leaves its receiver (or any child) changed. -/
theorem Renderable.stringifyRun_snd (x : Renderable) : x.stringifyRun.2 = x := by
  induction x with
  | selector storage => rfl
  | combined l c r ihl ihr =>
    simp [Renderable.stringifyRun, ihl, ihr]

/-- A reachable selector state is never the empty list. -/
theorem Reachable.ne_nil (storage : Selector) (h : Reachable storage) :
    storage ≠ [] := by
  induction h with
  | seeded selector value hk => simp
  | step storage selector value h hok ih =>
    unfold Selector.addPartRun
    cases hc : storage.check selector with
    | error e => simpa using ih
    | ok u => simp

/-! ## Claim theorems -/

/-- C1: for every chain of part additions started from one of the six
facade constructors in which kind ranks are non-decreasing and at most
one part each of kind `element`, `id` and `pseudoElement` is added, no
call throws, and `stringify()` returns the concatenation, in addition
order with no separators, of each part's formatted token. -/
theorem runChain_valid_stringify (first : SelectorPart) (rest : List SelectorPart)
    (_hmem : ∀ p ∈ first :: rest, p.selector ∈ selectorsOrder)
    (hchain : List.Chain' (fun a b => kindRank a.selector ≤ kindRank b.selector) (first :: rest))
    (he : ((first :: rest).filter (fun p => p.selector = "element")).length ≤ 1)
    (hi : ((first :: rest).filter (fun p => p.selector = "id")).length ≤ 1)
    (hpe : ((first :: rest).filter (fun p => p.selector = "pseudoElement")).length ≤ 1) :
    runChain first rest = Except.ok (first :: rest) ∧
    Selector.stringify (first :: rest) = concatTokens (first :: rest) := by
  constructor
  · have h := runChain_go rest [first] (by simp) (by simpa using hchain)
      (by simpa using he) (by simpa using hi) (by simpa using hpe)
    simpa [runChain] using h
  · exact Selector.stringify_eq_concatTokens _

/-- Witness for C1 at `id('main').class('container').class('editable')`,
including the spec's concrete rendering `#main.container.editable`. -/
theorem runChain_valid_stringify_witness :
    (runChain (SelectorPart.mk "id" "main")
        [SelectorPart.mk "class" "container", SelectorPart.mk "class" "editable"] =
      Except.ok [SelectorPart.mk "id" "main", SelectorPart.mk "class" "container",
        SelectorPart.mk "class" "editable"] ∧
      Selector.stringify [SelectorPart.mk "id" "main", SelectorPart.mk "class" "container",
        SelectorPart.mk "class" "editable"] =
        concatTokens [SelectorPart.mk "id" "main", SelectorPart.mk "class" "container",
          SelectorPart.mk "class" "editable"]) ∧
    Selector.stringify [SelectorPart.mk "id" "main", SelectorPart.mk "class" "container",
      SelectorPart.mk "class" "editable"] = "#main.container.editable" :=
  ⟨runChain_valid_stringify (SelectorPart.mk "id" "main")
      [SelectorPart.mk "class" "container", SelectorPart.mk "class" "editable"]
      (by decide)
      (List.Chain.cons (by decide) (List.Chain.cons (by decide) List.Chain.nil))
      (by decide) (by decide) (by decide),
    by decide⟩

/-- C2, counterexample to the stated message: `id('a').id('b')` does
throw the duplicate error, but the code's message spells
"more then one time", not "more than one time" as the claim states. -/
theorem duplicate_msg_cex :
    (Selector.id (cssSelectorBuilder.id "a") "b").1 =
      Except.error (JsError.thrown duplicateMsg) ∧
    duplicateMsg ≠
      "Element, id and pseudo-element should not occur more than one time inside the selector" := by
  constructor
  · rfl
  · decide

/-- C2 (amended): adding a part of kind `element`, `id` or
`pseudoElement` to a Selector that already contains a part of that kind
throws an error carrying the code's duplicate message (which reads
"... more then one time inside the selector"), leaving the storage
unchanged. -/
theorem duplicate_add_throws (storage : Selector) (selector value : String)
    (hk : selector = "element" ∨ selector = "id" ∨ selector = "pseudoElement")
    (hex : ∃ p ∈ storage, p.selector = selector) :
    storage.addPartRun selector value =
      (Except.error (JsError.thrown duplicateMsg), storage) :=
  Selector.addPartRun_dup storage selector value hk hex

/-- Witness for C2 (amended) at `id('a').id('b')`. -/
theorem duplicate_add_throws_witness :
    Selector.addPartRun (cssSelectorBuilder.id "a") "id" "b" =
      (Except.error (JsError.thrown duplicateMsg), cssSelectorBuilder.id "a") :=
  duplicate_add_throws (cssSelectorBuilder.id "a") "id" "b" (Or.inr (Or.inl rfl))
    ⟨SelectorPart.mk "id" "a", by decide, rfl⟩

/-- C3, counterexample to the stated generality: on
`element('a').class('c').element('b')` the new kind ranks strictly below
the last part's kind, yet the call throws the duplicate error, not the
out-of-order error. -/
theorem outOfOrder_cex :
    (Selector.element (Selector.«class» (cssSelectorBuilder.element "a") "c").2 "b").1 =
      Except.error (JsError.thrown duplicateMsg) ∧
    jsIndexOf selectorsOrder "element" < jsIndexOf selectorsOrder "class" ∧
    JsError.thrown duplicateMsg ≠ JsError.thrown outOfOrderMsg := by
  refine ⟨rfl, by decide, by decide⟩

/-- C3 (amended): provided the uniqueness check does not fire first (the
kind is not a duplicate `element`/`id`/`pseudoElement`), adding a kind
whose rank is strictly below the last part's kind throws the
out-of-order error with the code's message, while a kind of equal or
greater rank passes the ordering check and appends. -/
theorem outOfOrder_add_throws (storage : Selector) (selector value : String)
    (lp : SelectorPart)
    (hlast : storage.getLast? = some lp)
    (hnd : ¬((selector = "element" ∨ selector = "id" ∨ selector = "pseudoElement") ∧
      0 < (storage.filter (fun item => item.selector = selector)).length)) :
    (jsIndexOf selectorsOrder selector < jsIndexOf selectorsOrder lp.selector →
      storage.addPartRun selector value =
        (Except.error (JsError.thrown outOfOrderMsg), storage)) ∧
    (¬ jsIndexOf selectorsOrder selector < jsIndexOf selectorsOrder lp.selector →
      storage.addPartRun selector value =
        (Except.ok (), storage ++ [SelectorPart.mk selector value])) := by
  constructor
  · intro hord
    exact Selector.addPartRun_of_error storage selector value _
      (Selector.check_outOfOrder storage selector lp hnd hlast hord)
  · intro hord
    exact Selector.addPartRun_of_ok storage selector value
      (Selector.check_passes storage selector lp hnd hlast hord)

/-- Witness for C3 (amended) at `class('c').element('div')`. -/
theorem outOfOrder_add_throws_witness :
    Selector.addPartRun [SelectorPart.mk "class" "c"] "element" "div" =
      (Except.error (JsError.thrown outOfOrderMsg), [SelectorPart.mk "class" "c"]) :=
  (outOfOrder_add_throws [SelectorPart.mk "class" "c"] "element" "div"
      (SelectorPart.mk "class" "c") (by decide) (by decide)).1 (by decide)

/-- C4: `combine` renders `left.stringify() + ' ' + combinator + ' ' +
right.stringify()` for every combinator string, embedded verbatim, and
the equation holds at arbitrary nesting depth, e.g.
`combine(A, '+', combine(B, '~', C))`. -/
theorem combine_stringify (l r : Renderable) (c : String) (A B C : Renderable) :
    (cssSelectorBuilder.combine l c r).stringify =
      l.stringify ++ " " ++ c ++ " " ++ r.stringify ∧
    (cssSelectorBuilder.combine A "+" (cssSelectorBuilder.combine B "~" C)).stringify =
      A.stringify ++ " + " ++ B.stringify ++ " ~ " ++ C.stringify := by
  have h1 : ∀ X : String, " " ++ ("+" ++ (" " ++ X)) = " + " ++ X := by
    intro X
    rw [← String.append_assoc, ← String.append_assoc]
    rfl
  have h2 : ∀ X : String, " " ++ ("~" ++ (" " ++ X)) = " ~ " ++ X := by
    intro X
    rw [← String.append_assoc, ← String.append_assoc]
    rfl
  constructor
  · rfl
  · show A.stringify ++ " " ++ "+" ++ " " ++
        (B.stringify ++ " " ++ "~" ++ " " ++ C.stringify) = _
    simp only [String.append_assoc, h1, h2]

/-- C5: on an addition that violates both the uniqueness and the
ordering constraint at once, the duplicate error is thrown, not the
out-of-order error (the uniqueness check runs first). -/
theorem duplicate_beats_outOfOrder (storage : Selector) (selector value : String)
    (lp : SelectorPart)
    (hk : selector = "element" ∨ selector = "id" ∨ selector = "pseudoElement")
    (hex : ∃ p ∈ storage, p.selector = selector)
    (_hlast : storage.getLast? = some lp)
    (_hord : jsIndexOf selectorsOrder selector < jsIndexOf selectorsOrder lp.selector) :
    storage.addPartRun selector value =
      (Except.error (JsError.thrown duplicateMsg), storage) ∧
    (storage.addPartRun selector value).1 ≠
      Except.error (JsError.thrown outOfOrderMsg) := by
  have h := Selector.addPartRun_dup storage selector value hk hex
  refine ⟨h, ?_⟩
  rw [h]
  intro hcontra
  have : duplicateMsg = outOfOrderMsg := by
    injection Except.error.inj hcontra with hmsg
  exact absurd this (by decide)

/-- Witness for C5 at `element('a').class('c').element('b')`. -/
theorem duplicate_beats_outOfOrder_witness :
    Selector.addPartRun [SelectorPart.mk "element" "a", SelectorPart.mk "class" "c"]
        "element" "b" =
      (Except.error (JsError.thrown duplicateMsg),
        [SelectorPart.mk "element" "a", SelectorPart.mk "class" "c"]) ∧
    (Selector.addPartRun [SelectorPart.mk "element" "a", SelectorPart.mk "class" "c"]
        "element" "b").1 ≠
      Except.error (JsError.thrown outOfOrderMsg) :=
  duplicate_beats_outOfOrder
    [SelectorPart.mk "element" "a", SelectorPart.mk "class" "c"] "element" "b"
    (SelectorPart.mk "class" "c") (Or.inl rfl)
    ⟨SelectorPart.mk "element" "a", by decide, rfl⟩ (by decide) (by decide)

/-- C6: each of the six facade constructors returns a fresh Selector
holding exactly one part of the matching kind with the given value, and
a part-adder call whose check passes yields the storage with the new
part appended at the end and all earlier parts unchanged. -/
theorem facade_seed_and_append (v : String) (storage : Selector) (selector value : String)
    (h : (storage.addPartRun selector value).1 = Except.ok ()) :
    cssSelectorBuilder.element v = [SelectorPart.mk "element" v] ∧
    cssSelectorBuilder.id v = [SelectorPart.mk "id" v] ∧
    cssSelectorBuilder.«class» v = [SelectorPart.mk "class" v] ∧
    cssSelectorBuilder.attr v = [SelectorPart.mk "attr" v] ∧
    cssSelectorBuilder.pseudoClass v = [SelectorPart.mk "pseudoClass" v] ∧
    cssSelectorBuilder.pseudoElement v = [SelectorPart.mk "pseudoElement" v] ∧
    (storage.addPartRun selector value).2 = storage ++ [SelectorPart.mk selector value] := by
  refine ⟨rfl, rfl, rfl, rfl, rfl, rfl, ?_⟩
  cases hc : storage.check selector with
  | error e =>
    rw [Selector.addPartRun_of_error storage selector value e hc] at h
    exact absurd h (by simp)
  | ok u =>
    cases u
    rw [Selector.addPartRun_of_ok storage selector value hc]

/-- Witness for C6 at `id('a').class('c')`. -/
theorem facade_seed_and_append_witness :
    cssSelectorBuilder.element "x" = [SelectorPart.mk "element" "x"] ∧
    cssSelectorBuilder.id "x" = [SelectorPart.mk "id" "x"] ∧
    cssSelectorBuilder.«class» "x" = [SelectorPart.mk "class" "x"] ∧
    cssSelectorBuilder.attr "x" = [SelectorPart.mk "attr" "x"] ∧
    cssSelectorBuilder.pseudoClass "x" = [SelectorPart.mk "pseudoClass" "x"] ∧
    cssSelectorBuilder.pseudoElement "x" = [SelectorPart.mk "pseudoElement" "x"] ∧
    (Selector.addPartRun [SelectorPart.mk "id" "a"] "class" "c").2 =
      [SelectorPart.mk "id" "a"] ++ [SelectorPart.mk "class" "c"] :=
  facade_seed_and_append "x" [SelectorPart.mk "id" "a"] "class" "c" (by decide)

/-- C7: `combine` stores its two arguments unchanged (it never mutates
them), and calling `stringify()` on the combined expression leaves the
stored children exactly as they were. -/
theorem combine_frame (l r : Renderable) (c : String) :
    (cssSelectorBuilder.combine l c r).leftChild = some l ∧
    (cssSelectorBuilder.combine l c r).rightChild = some r ∧
    ((cssSelectorBuilder.combine l c r).stringifyRun).2 = cssSelectorBuilder.combine l c r :=
  ⟨rfl, rfl, Renderable.stringifyRun_snd _⟩

/-- C8: every Selector reachable through the public facade has a
non-empty part sequence, so `check`'s access to the last-appended part
is defined and never faults with a `TypeError`. -/
theorem reachable_nonempty (storage : Selector) (selector : String)
    (h : Reachable storage) :
    storage ≠ [] ∧ storage.getLast?.isSome ∧
    storage.check selector ≠ Except.error JsError.typeError := by
  have hne : storage ≠ [] := Reachable.ne_nil storage h
  obtain ⟨lp, hlp⟩ : ∃ lp, storage.getLast? = some lp := by
    cases hl : storage.getLast? with
    | none => exact absurd (List.getLast?_eq_none_iff.mp hl) hne
    | some lp => exact ⟨lp, rfl⟩
  refine ⟨hne, by rw [hlp]; rfl, ?_⟩
  intro hcontra
  by_cases hd : (selector = "element" ∨ selector = "id" ∨ selector = "pseudoElement") ∧
      0 < (storage.filter (fun item => item.selector = selector)).length
  · rw [Selector.check_dup storage selector hd.1 hd.2] at hcontra
    simp at hcontra
  · by_cases ho : jsIndexOf selectorsOrder selector < jsIndexOf selectorsOrder lp.selector
    · rw [Selector.check_outOfOrder storage selector lp hd hlp ho] at hcontra
      simp at hcontra
    · rw [Selector.check_passes storage selector lp hd hlp ho] at hcontra
      simp at hcontra

/-- Witness for C8 at the facade-seeded Selector `id('a')`. -/
theorem reachable_nonempty_witness :
    [SelectorPart.mk "id" "a"] ≠ ([] : Selector) ∧
    (List.getLast? [SelectorPart.mk "id" "a"]).isSome ∧
    Selector.check [SelectorPart.mk "id" "a"] "element" ≠
      Except.error JsError.typeError :=
  reachable_nonempty [SelectorPart.mk "id" "a"] "element"
    (Reachable.seeded "id" "a" (by decide))

/-- C9: rendering is read-only and hence idempotent: a `stringify()`
call leaves the instance unchanged, and a second call on the unmutated
instance returns the identical string. -/
theorem stringify_idempotent (x : Renderable) (storage : Selector) :
    x.stringifyRun.2 = x ∧
    (x.stringifyRun.2).stringifyRun.1 = x.stringifyRun.1 ∧
    storage.stringifyRun.2 = storage ∧
    (storage.stringifyRun.2).stringifyRun.1 = storage.stringifyRun.1 :=
  ⟨Renderable.stringifyRun_snd x, by rw [Renderable.stringifyRun_snd x], rfl, rfl⟩

/-- C10: a part-adder call that throws leaves the stored part sequence
exactly as it was (the check runs and throws before anything is
appended), so a subsequent `stringify()` returns the same string. -/
theorem failed_add_atomic (storage : Selector) (selector value : String) (e : JsError)
    (h : (storage.addPartRun selector value).1 = Except.error e) :
    (storage.addPartRun selector value).2 = storage ∧
    Selector.stringify (storage.addPartRun selector value).2 = storage.stringify := by
  cases hc : storage.check selector with
  | error e' =>
    rw [Selector.addPartRun_of_error storage selector value e' hc]
    exact ⟨rfl, rfl⟩
  | ok u =>
    cases u
    rw [Selector.addPartRun_of_ok storage selector value hc] at h
    exact absurd h (by simp)

/-- Witness for C10 at `id('a').id('b')`. -/
theorem failed_add_atomic_witness :
    (Selector.addPartRun [SelectorPart.mk "id" "a"] "id" "b").2 =
      [SelectorPart.mk "id" "a"] ∧
    Selector.stringify (Selector.addPartRun [SelectorPart.mk "id" "a"] "id" "b").2 =
      Selector.stringify [SelectorPart.mk "id" "a"] :=
  failed_add_atomic [SelectorPart.mk "id" "a"] "id" "b"
    (JsError.thrown duplicateMsg) (by decide)
